import Mathlib

/-!
Verification of the Threat Authorization & Adaptive Learning Coordinator
of the SatHack drone-swarm simulation.

The development shallowly embeds the relevant parts of the Python sources:
  * `swarm_state.py` — the shared `SwarmState` (threat registry, authorization
    protocol, mission log),
  * `datacenter.py`  — the operator actions `approve` / `deny`,
  * `adaptive_learner.py` — the `AdaptiveThreatLearner` (rule table, prediction
    fallback, online learning, statistics, persistence).

Modelling conventions:
  * Python floats are modelled by `ℚ` (the spec arithmetic is exact decimal).
  * The scikit-learn `GaussianNB` backend is opaque: it is modelled as an
    optional oracle `FeatureVec → Option (Bool × ℚ)`; a `none` result models a
    raised exception, which the code catches and turns into the rule fallback.
  * Wall-clock reads (`datetime.now`, `time.time`) are passed in as explicit
    `ℚ` parameters.
  * The busy-wait poll loop of `request_permission` is modelled with fuel:
    15 s timeout / 0.2 s sleep = 75 polls; the externally written
    `user_response` slot is modelled by a poll schedule `Nat → Option Bool`
    giving the value visible at each poll.
-/

namespace DroneSim

/-- A detection record as produced by the perception source
(`queen.py` builds `{'class', 'confidence', 'world_pos', 'bbox_area',
'timestamp'}`). -/
structure Detection where
  cls : String
  confidence : ℚ
  worldX : ℚ
  worldY : ℚ
  bboxArea : ℚ
  timestamp : ℚ
deriving Repr, DecidableEq

/-- A mission-log entry (`swarm_state.py`, `SwarmState.log`); the wall-clock
`time` field is omitted as no claim depends on it. -/
structure LogEntry where
  source : String
  message : String
  level : String
deriving Repr, DecidableEq

/-- The shared swarm state (`swarm_state.py`, `SwarmState.__init__`), restricted
to the fields the threat registry and the authorization protocol touch. -/
structure SwarmState where
  threats : List Detection
  active_threat : Option Detection
  queen_mode : String
  threat_level : String
  pending_permission : Bool
  user_response : Option Bool
  mission_logs : List LogEntry
deriving Repr, DecidableEq

/-- Initial swarm state (`SwarmState.__init__`): no threats, `queen_mode`
"normal", `threat_level` "GREEN", no pending permission. -/
def initState : SwarmState :=
  { threats := []
    active_threat := none
    queen_mode := "normal"
    threat_level := "GREEN"
    pending_permission := false
    user_response := none
    mission_logs := [] }

/-- `SwarmState.log`: append the entry to `mission_logs`, dropping the oldest
entry when the list exceeds 2000. -/
def SwarmState.log (s : SwarmState) (source message level : String) : SwarmState :=
  let logs := s.mission_logs ++ [⟨source, message, level⟩]
  { s with mission_logs := if logs.length > 2000 then logs.tail else logs }

/-- `SwarmState.add_threat`: append the detection to `threats`, make it the
active threat, set `threat_level` to "RED", and log a CRITICAL entry.  The
code performs no confidence comparison and keeps no separate ping log. -/
def SwarmState.addThreat (s : SwarmState) (d : Detection) : SwarmState :=
  let s1 : SwarmState :=
    { s with threats := s.threats ++ [d]
             active_threat := some d
             threat_level := "RED" }
  s1.log "QUEEN" ("THREAT: " ++ d.cls) "CRITICAL"

/-- Timeout of `request_permission` in seconds (`timeout = 15`). -/
def timeoutSeconds : ℚ := 15

/-- Sleep interval of the poll loop in seconds (`time.sleep(0.2)`). -/
def pollInterval : ℚ := 1/5

/-- Number of polls the 15 s / 0.2 s busy-wait loop performs before the
timeout branch is taken. -/
def timeoutPolls : Nat := 75

/-- The poll loop of `SwarmState.request_permission`: at each iteration the
currently visible `user_response` value is `env i` (written concurrently by
`approve`/`deny`).  A `some` value is consumed: `pending_permission` is
cleared, the slot is reset to `none`, the outcome is logged and returned.
When the fuel (the 15 s budget) runs out, the timeout branch logs
"TIMEOUT - AUTO-AUTH", clears `pending_permission` and returns `true`. -/
def pollAux (env : Nat → Option Bool) : Nat → Nat → SwarmState → SwarmState × Bool
  | 0, _, s =>
      ({ s.log "SYSTEM" "TIMEOUT - AUTO-AUTH" "WARNING" with pending_permission := false }, true)
  | fuel + 1, i, s =>
      match env i with
      | some approved =>
          let s1 : SwarmState := { s with pending_permission := false, user_response := none }
          if approved then (s1.log "USER" "AUTHORIZED" "CRITICAL", true)
          else (s1.log "USER" "DENIED" "WARNING", false)
      | none => pollAux env fuel (i + 1) s

/-- `SwarmState.request_permission`: in "jammer" mode log and return `true`
immediately; otherwise log the request (and the target when an active threat
exists), set `pending_permission`, clear the response slot, and poll. -/
def SwarmState.requestPermission (s : SwarmState) (env : Nat → Option Bool) :
    SwarmState × Bool :=
  if s.queen_mode = "jammer" then
    (s.log "SYSTEM" "JAMMER MODE - AUTO-AUTH" "WARNING", true)
  else
    let s1 := s.log "QUEEN" "REQUESTING AUTHORIZATION" "WARNING"
    let s2 := match s1.active_threat with
      | some d => s1.log "QUEEN" ("Target: " ++ d.cls) "WARNING"
      | none => s1
    let s3 : SwarmState := { s2 with pending_permission := true, user_response := none }
    pollAux env timeoutPolls 0 s3

/-- The `/approve` endpoint of `datacenter.py`: unconditionally sets
`user_response := True`, clears `pending_permission`, and logs. -/
def approve (s : SwarmState) : SwarmState :=
  SwarmState.log
    { s with user_response := some true, pending_permission := false }
    "USER" "AUTHORIZED" "CRITICAL"

/-- The `/deny` endpoint of `datacenter.py`: unconditionally sets
`user_response := False`, clears `pending_permission`, and logs. -/
def deny (s : SwarmState) : SwarmState :=
  SwarmState.log
    { s with user_response := some false, pending_permission := false }
    "USER" "DENIED" "WARNING"

/-- The class encoding of `AdaptiveThreatLearner.extract_features`
(`class_map.get(..., -1)`). -/
def classMap : String → Int
  | "person" => 0
  | "car" => 1
  | "truck" => 2
  | "bus" => 3
  | "motorcycle" => 4
  | "bicycle" => 5
  | _ => -1

/-- The 7-dimensional feature vector of `extract_features`, kept as a record
of its determining components: `[class_val, confidence, x/100, y/100,
bbox_area/10000, dist/100, hour/24]`.  The Euclidean-distance feature
`dist/100 = sqrt(x²+y²)/100` is irrational in general; it is a function of
`xNorm` and `yNorm`, so the record keeps those and no claim inspects the
distance value itself. -/
structure FeatureVec where
  classVal : Int
  confidence : ℚ
  xNorm : ℚ
  yNorm : ℚ
  areaNorm : ℚ
  hourNorm : ℚ
deriving Repr, DecidableEq

/-- `AdaptiveThreatLearner.extract_features` with the wall-clock hour passed
explicitly. -/
def extractFeatures (hour : ℚ) (d : Detection) : FeatureVec :=
  { classVal := classMap d.cls
    confidence := d.confidence
    xNorm := d.worldX / 100
    yNorm := d.worldY / 100
    areaNorm := d.bboxArea / 10000
    hourNorm := hour / 24 }

/-- A rule of the fallback table (`threat_patterns` values: `min_conf`,
`classes`, `priority`). -/
structure RulePattern where
  name : String
  min_conf : ℚ
  classes : List String
  priority : ℚ
deriving Repr, DecidableEq

/-- The default `threat_patterns` table, in Python dict insertion order. -/
def defaultPatterns : List RulePattern :=
  [ { name := "high_confidence_vehicle", min_conf := 3/4,
      classes := ["car", "truck", "bus"], priority := 4/5 }
  , { name := "person_detected", min_conf := 7/10,
      classes := ["person"], priority := 17/20 }
  , { name := "large_vehicle", min_conf := 13/20,
      classes := ["truck", "bus"], priority := 9/10 } ]

/-- The loop body of `_rule_based_assessment`: first pattern whose class list
contains the detection's class and whose `min_conf` is at most the detection's
confidence returns `(True, conf * priority)`; a class match with too low a
confidence falls through to the next pattern; exhaustion returns
`(False, conf * 0.4)`. -/
def assessPatterns (d : Detection) : List RulePattern → Bool × ℚ
  | [] => (false, d.confidence * (2/5))
  | p :: rest =>
      if d.cls ∈ p.classes then
        if p.min_conf ≤ d.confidence then (true, d.confidence * p.priority)
        else assessPatterns d rest
      else assessPatterns d rest

/-- An entry of the experience buffer (`learn_from_feedback` stores
`{'features', 'label', 'timestamp', 'detection': {'class', 'confidence'}}`). -/
structure Experience where
  features : FeatureVec
  label : Nat
  timestamp : ℚ
  detCls : String
  detConfidence : ℚ
deriving Repr, DecidableEq

/-- An entry of `training_history`
(`{'timestamp', 'label', 'class'}`). -/
structure TrainingEvent where
  timestamp : ℚ
  label : Nat
  cls : String
deriving Repr, DecidableEq

/-- The classifier backend (`GaussianNB`) as an opaque prediction oracle;
`none` as an oracle result models a raised exception from
`predict`/`predict_proba`, which the code catches. -/
def MLOracle : Type := FeatureVec → Option (Bool × ℚ)

/-- The `AdaptiveThreatLearner` state: `classifier = none` models the
scikit-learn import failure (`self.classifier = None`). -/
structure Learner where
  classifier : Option MLOracle
  is_trained : Bool
  experience_buffer : List Experience
  training_history : List TrainingEvent
  threat_patterns : List RulePattern

/-- `_rule_based_assessment` over the learner's own pattern table. -/
def Learner.ruleBasedAssessment (L : Learner) (d : Detection) : Bool × ℚ :=
  assessPatterns d L.threat_patterns

/-- `predict_threat_level`: rules when untrained or fewer than 5 experiences,
rules when the backend is unavailable, rules when the backend raises;
otherwise the backend's prediction. -/
def Learner.predictThreatLevel (L : Learner) (hour : ℚ) (d : Detection) : Bool × ℚ :=
  let features := extractFeatures hour d
  if !L.is_trained || L.experience_buffer.length < 5 then
    L.ruleBasedAssessment d
  else
    match L.classifier with
    | none => L.ruleBasedAssessment d
    | some ml =>
        match ml features with
        | some r => r
        | none => L.ruleBasedAssessment d

/-- `AUTONOMOUS_THRESHOLD = 0.80` in `autonomous_decision`. -/
def AUTONOMOUS_THRESHOLD : ℚ := 4/5

/-- `autonomous_decision`: authorize exactly when the prediction is a threat
and its confidence is strictly above the threshold
(`is_threat and confidence > AUTONOMOUS_THRESHOLD`). -/
def Learner.autonomousDecision (L : Learner) (hour : ℚ) (d : Detection) : Bool :=
  let r := L.predictThreatLevel hour d
  r.1 && decide (AUTONOMOUS_THRESHOLD < r.2)

/-- Append to a buffer bounded at `n` entries, evicting the oldest first
(the semantics of `deque(maxlen=n).append`). -/
def pushCap (n : Nat) (buf : List Experience) (e : Experience) : List Experience :=
  if n ≤ buf.length then buf.tail ++ [e] else buf ++ [e]

/-- `learn_from_feedback` with the wall-clock reads and the outcome of the
`partial_fit` call passed explicitly (`fitOk = false` models a raised
exception, caught by the `except` clause).  The experience-buffer append
happens before the `try` block, so it is performed even when `partial_fit`
fails; `is_trained` and `training_history` are only updated on success. -/
def Learner.learnFromFeedback (L : Learner) (d : Detection) (userConfirmed : Bool)
    (hour now : ℚ) (fitOk : Bool) : Learner :=
  match L.classifier with
  | none => L
  | some _ =>
      let label : Nat := if userConfirmed then 1 else 0
      let e : Experience :=
        { features := extractFeatures hour d
          label := label
          timestamp := now
          detCls := d.cls
          detConfidence := d.confidence }
      let L1 := { L with experience_buffer := pushCap 1000 L.experience_buffer e }
      if fitOk then
        { L1 with is_trained := true
                  training_history := L1.training_history ++ [⟨now, label, d.cls⟩] }
      else L1

/-- The record returned by `get_stats`. -/
structure Stats where
  total_detections : Nat
  confirmed_threats : Nat
  denied_threats : Nat
  accuracy_estimate : ℚ
  is_trained : Bool
  model_age_hours : ℚ
deriving Repr, DecidableEq

/-- `get_stats` with the wall clock passed explicitly: the all-zero record on
an empty buffer, otherwise counts by label and the `confirmed/total` ratio. -/
def Learner.getStats (L : Learner) (now : ℚ) : Stats :=
  let total := L.experience_buffer.length
  if total = 0 then
    { total_detections := 0, confirmed_threats := 0, denied_threats := 0,
      accuracy_estimate := 0, is_trained := false, model_age_hours := 0 }
  else
    let confirmed := (L.experience_buffer.filter (fun e => e.label = 1)).length
    let age : ℚ := match L.training_history with
      | [] => 0
      | h :: _ => (now - h.timestamp) / 3600
    { total_detections := total
      confirmed_threats := confirmed
      denied_threats := total - confirmed
      accuracy_estimate := (confirmed : ℚ) / (total : ℚ)
      is_trained := L.is_trained
      model_age_hours := age }

/-- The last `n` elements of a list, in order (the semantics of Python's
`l[-n:]` and of `deque(l, maxlen=n)`). -/
def lastN (n : Nat) (l : List α) : List α :=
  l.drop (l.length - n)

/-- The persisted artifact written by `save_model` (`model_data`); the pickle
blob is modelled structurally. -/
structure ModelData where
  classifier : Option MLOracle
  experience : List Experience
  patterns : List RulePattern
  is_trained : Bool
  training_history : List TrainingEvent
  version : String
  timestamp : ℚ

/-- `save_model`: snapshot of classifier, experience buffer, pattern table,
trained flag and the last 100 training-history events. -/
def Learner.saveModel (L : Learner) (now : ℚ) : ModelData :=
  { classifier := L.classifier
    experience := L.experience_buffer
    patterns := L.threat_patterns
    is_trained := L.is_trained
    training_history := lastN 100 L.training_history
    version := "1.0"
    timestamp := now }

/-- `load_model` invoked on a fully constructed learner (every attribute it
reads exists): restores classifier, experience buffer (as a
`deque(maxlen=1000)`), pattern table, trained flag and training history;
`file = none` models an absent file (the method returns leaving the learner
unchanged). -/
def Learner.loadModelPost (L : Learner) (file : Option ModelData) : Learner :=
  match file with
  | none => L
  | some data =>
      { classifier := data.classifier
        is_trained := data.is_trained
        experience_buffer := lastN 1000 data.experience
        training_history := data.training_history
        threat_patterns := data.patterns }

/-- `AdaptiveThreatLearner.__init__` including its automatic `load_model()`
call.  `__init__` assigns, in order: `classifier` (`fresh`, or `none` when the
scikit-learn import fails), `is_trained = False`, an empty experience buffer,
an empty training history, THEN calls `load_model()`, and only afterwards
assigns `threat_patterns`.  When a saved file exists, `load_model` restores
`classifier` and `experience_buffer`, and then the line
`self.threat_patterns = data.get('patterns', self.threat_patterns)` raises
`AttributeError` (the attribute is not yet defined at that point of
`__init__`); the `except` clause catches it, so `is_trained` and
`training_history` are NOT restored.  Finally `__init__` sets the default
pattern table. -/
def initLearner (fresh : Option MLOracle) (file : Option ModelData) : Learner :=
  match file with
  | none =>
      { classifier := fresh
        is_trained := false
        experience_buffer := []
        training_history := []
        threat_patterns := defaultPatterns }
  | some data =>
      { classifier := data.classifier
        is_trained := false
        experience_buffer := lastN 1000 data.experience
        training_history := []
        threat_patterns := defaultPatterns }

section Lemmas

/-- Logging always leaves the just-appended entry at the end of the mission
log (the cap-2000 pruning drops from the front). -/
lemma log_getLast (s : SwarmState) (a b c : String) :
    (s.log a b c).mission_logs.getLast? = some ⟨a, b, c⟩ := by
  unfold SwarmState.log
  by_cases h : (s.mission_logs ++ [(⟨a, b, c⟩ : LogEntry)]).length > 2000
  · simp only [h, if_pos]
    cases hm : s.mission_logs with
    | nil => rw [hm] at h; simp at h
    | cons x xs =>
        simp only [List.cons_append, List.tail_cons]
        exact List.getLast?_concat _
  · simp only [h, if_neg, ite_false]
    exact List.getLast?_concat _

/-- `SwarmState.log` changes only `mission_logs`. -/
lemma log_fields (s : SwarmState) (a b c : String) :
    (s.log a b c).pending_permission = s.pending_permission ∧
    (s.log a b c).user_response = s.user_response ∧
    (s.log a b c).active_threat = s.active_threat ∧
    (s.log a b c).queen_mode = s.queen_mode := by
  simp [SwarmState.log]

/-- When no response is ever posted, the poll loop runs out of fuel and takes
the timeout branch. -/
lemma pollAux_all_none (env : Nat → Option Bool) (henv : ∀ j, env j = none) :
    ∀ (fuel i : Nat) (s : SwarmState),
      pollAux env fuel i s =
        ({ s.log "SYSTEM" "TIMEOUT - AUTO-AUTH" "WARNING" with pending_permission := false },
          true) := by
  intro fuel
  induction fuel with
  | zero => intro i s; rfl
  | succ n ih => intro i s; simp only [pollAux, henv i]; exact ih (i + 1) s

/-- A response visible at the first poll is consumed immediately. -/
lemma pollAux_consume (env : Nat → Option Bool) (fuel i : Nat) (s : SwarmState)
    (v : Bool) (h : env i = some v) :
    pollAux env (fuel + 1) i s =
      (let s1 : SwarmState := { s with pending_permission := false, user_response := none }
       if v then (s1.log "USER" "AUTHORIZED" "CRITICAL", true)
       else (s1.log "USER" "DENIED" "WARNING", false)) := by
  simp only [pollAux, h]

/-- The poll loop never writes the response slot back to a value: if the slot
is `none` going in, it is `none` in the final state. -/
lemma pollAux_user_response (env : Nat → Option Bool) :
    ∀ (fuel i : Nat) (s : SwarmState), s.user_response = none →
      (pollAux env fuel i s).1.user_response = none := by
  intro fuel
  induction fuel with
  | zero => intro i s h; simpa [pollAux, SwarmState.log] using h
  | succ n ih =>
      intro i s h
      cases he : env i with
      | none => simp only [pollAux, he]; exact ih (i + 1) s h
      | some v =>
          simp only [pollAux, he]
          cases v <;> simp [SwarmState.log]

/-- The bounded push of a full-capacity fold: starting empty, folding
`pushCap n` over a list keeps exactly the last `n` pushed elements, in
order. -/
lemma foldl_pushCap_eq_drop (n : Nat) (hn : 0 < n) (es : List Experience) :
    es.foldl (pushCap n) [] = es.drop (es.length - n) := by
  induction es using List.reverseRecOn with
  | nil => simp
  | append_singleton es e ih =>
      rw [List.foldl_append]
      simp only [List.foldl_cons, List.foldl_nil]
      rw [ih]
      by_cases hk : es.length < n
      · have h1 : es.length - n = 0 := by omega
        have h2 : (es ++ [e]).length - n = 0 := by simp; omega
        rw [h1, h2, List.drop_zero, List.drop_zero]
        unfold pushCap
        rw [if_neg (by omega)]
      · have hnk : n ≤ es.length := by omega
        have hlen : (es.drop (es.length - n)).length = n := by
          rw [List.length_drop]; omega
        unfold pushCap
        rw [if_pos (by omega), List.tail_drop]
        have h3 : (es ++ [e]).length - n = es.length - n + 1 := by simp; omega
        rw [h3, List.drop_append_of_le_length (by omega)]

end Lemmas

/-- One `learn_from_feedback` call's inputs: the detection, the operator
verdict, the two wall-clock reads and the `partial_fit` outcome. -/
structure LearnInput where
  d : Detection
  confirmed : Bool
  hour : ℚ
  now : ℚ
  fitOk : Bool

/-- The experience-buffer entry a `learn_from_feedback` call appends. -/
def entryOf (inp : LearnInput) : Experience :=
  { features := extractFeatures inp.hour inp.d
    label := if inp.confirmed then 1 else 0
    timestamp := inp.now
    detCls := inp.d.cls
    detConfidence := inp.d.confidence }

/-- `learn_from_feedback` as a fold step over `LearnInput`s. -/
def learnStep (L : Learner) (inp : LearnInput) : Learner :=
  L.learnFromFeedback inp.d inp.confirmed inp.hour inp.now inp.fitOk

section Lemmas2

/-- Learning never changes the classifier backend reference. -/
lemma learnStep_classifier (L : Learner) (inp : LearnInput) :
    (learnStep L inp).classifier = L.classifier := by
  unfold learnStep Learner.learnFromFeedback
  cases hc : L.classifier <;> cases inp.fitOk <;> simp [hc]

/-- With the backend available, each learning call pushes exactly its entry
onto the bounded buffer. -/
lemma learnStep_buffer (L : Learner) (inp : LearnInput) (h : L.classifier.isSome = true) :
    (learnStep L inp).experience_buffer = pushCap 1000 L.experience_buffer (entryOf inp) := by
  unfold learnStep Learner.learnFromFeedback
  cases hc : L.classifier with
  | none => rw [hc] at h; simp at h
  | some ml => cases inp.fitOk <;> simp [entryOf]

/-- Folding learning calls folds the corresponding bounded pushes. -/
lemma foldl_learnStep_buffer (inputs : List LearnInput) :
    ∀ (L : Learner), L.classifier.isSome = true →
      (inputs.foldl learnStep L).experience_buffer =
        (inputs.map entryOf).foldl (pushCap 1000) L.experience_buffer := by
  induction inputs with
  | nil => intro L _; rfl
  | cons inp rest ih =>
      intro L h
      simp only [List.foldl_cons, List.map_cons]
      rw [ih (learnStep L inp) (by rw [learnStep_classifier]; exact h),
        learnStep_buffer L inp h]

end Lemmas2

/-- C1 counterexample: `add_threat` performs no confidence comparison.  With
an active threat of confidence 4/5, submitting a detection of strictly lower
confidence 3/5 still replaces the active threat, whereas the claim says the
active threat is unchanged in that case. -/
theorem addThreat_lower_confidence_replaces_counterexample :
    let da : Detection := ⟨"person", 4/5, 0, 0, 1000, 0⟩
    let db : Detection := ⟨"car", 3/5, 0, 0, 1000, 0⟩
    let s1 := initState.addThreat da
    s1.active_threat = some da ∧ db.confidence < da.confidence ∧
    (s1.addThreat db).active_threat = some db ∧ db ≠ da := by
  refine ⟨rfl, by norm_num, rfl, ?_⟩
  intro h
  exact absurd (congrArg Detection.cls h) (by decide)

/-- C1 amended: `add_threat` unconditionally appends the detection to the
`threats` history, makes it the active threat and sets `threat_level` to
"RED"; in particular after submitting D1{person, 0.6} then D2{car, 0.8} the
active threat is D2, the history is [D1, D2] (there is no separate ping log)
and the threat level is "RED". -/
theorem addThreat_unconditional_promotion :
    (∀ (s : SwarmState) (d : Detection),
      (s.addThreat d).active_threat = some d ∧
      (s.addThreat d).threat_level = "RED" ∧
      (s.addThreat d).threats = s.threats ++ [d]) ∧
    (let d1 : Detection := ⟨"person", 3/5, 0, 0, 1000, 0⟩
     let d2 : Detection := ⟨"car", 4/5, 0, 0, 1000, 0⟩
     let s2 := (initState.addThreat d1).addThreat d2
     s2.active_threat = some d2 ∧ s2.threats = [d1, d2] ∧ s2.threat_level = "RED") := by
  constructor
  · intro s d
    refine ⟨rfl, rfl, ?_⟩
    simp [SwarmState.addThreat, SwarmState.log]
  · refine ⟨rfl, ?_, rfl⟩
    simp [initState, SwarmState.addThreat, SwarmState.log]

/-- C2 counterexample: a `partial_fit` failure does not leave the learner
unchanged — the experience-buffer append happens before the `try` block, so
the buffer has grown after the failed call. -/
theorem learn_failed_fit_mutates_buffer_counterexample :
    let L : Learner := ⟨some (fun _ => none), false, [], [], defaultPatterns⟩
    let d : Detection := ⟨"person", 9/10, 0, 0, 1000, 0⟩
    L.experience_buffer = [] ∧
    (L.learnFromFeedback d true 0 0 false).experience_buffer ≠ [] := by
  constructor
  · rfl
  · simp [Learner.learnFromFeedback, pushCap]

/-- C2 amended: when the incremental training step fails, the trained flag and
the training history are unchanged, but the new experience entry has already
been appended to the (bounded) buffer — the buffer is mutated. -/
theorem learn_failure_partial_mutation (L : Learner) (d : Detection)
    (uc : Bool) (hour now : ℚ) :
    (L.learnFromFeedback d uc hour now false).is_trained = L.is_trained ∧
    (L.learnFromFeedback d uc hour now false).training_history = L.training_history ∧
    (L.classifier.isSome = true →
      (L.learnFromFeedback d uc hour now false).experience_buffer =
        pushCap 1000 L.experience_buffer
          ⟨extractFeatures hour d, if uc then 1 else 0, now, d.cls, d.confidence⟩) := by
  unfold Learner.learnFromFeedback
  cases hc : L.classifier with
  | none => simp [hc]
  | some ml => simp [hc]

/-- C2 witness: the amended statement at a concrete learner whose backend is
available. -/
theorem learn_failure_partial_mutation_witness :
    (Learner.learnFromFeedback ⟨some (fun _ => none), false, [], [], defaultPatterns⟩
        ⟨"car", 7/10, 0, 0, 1000, 0⟩ true 0 0 false).is_trained = false ∧
    (Learner.learnFromFeedback ⟨some (fun _ => none), false, [], [], defaultPatterns⟩
        ⟨"car", 7/10, 0, 0, 1000, 0⟩ true 0 0 false).training_history = [] ∧
    (Learner.learnFromFeedback ⟨some (fun _ => none), false, [], [], defaultPatterns⟩
        ⟨"car", 7/10, 0, 0, 1000, 0⟩ true 0 0 false).experience_buffer =
      pushCap 1000 []
        ⟨extractFeatures 0 ⟨"car", 7/10, 0, 0, 1000, 0⟩, 1, 0, "car", 7/10⟩ := by
  have h := learn_failure_partial_mutation
    ⟨some (fun _ => none), false, [], [], defaultPatterns⟩
    ⟨"car", 7/10, 0, 0, 1000, 0⟩ true 0 0
  exact ⟨h.1, h.2.1, by simpa using h.2.2 rfl⟩

/-- C7: the rule-based assessor returns, for the first pattern in declared
order whose class list contains the detection's class and whose
`min_conf` is at most the detection's confidence, the pair
`(true, confidence * priority)`, and `(false, confidence * 0.4)` when no
pattern matches; on the default table, person@0.70 gives (true, 0.595) and
bicycle@0.99 gives (false, 0.396). -/
theorem ruleBasedAssessment_first_match :
    (∀ (d : Detection) (ps : List RulePattern),
      assessPatterns d ps =
        (match ps.find? (fun p => decide (d.cls ∈ p.classes) && decide (p.min_conf ≤ d.confidence)) with
         | some p => (true, d.confidence * p.priority)
         | none => (false, d.confidence * (2/5)))) ∧
    Learner.ruleBasedAssessment ⟨none, false, [], [], defaultPatterns⟩
      ⟨"person", 7/10, 0, 0, 1000, 0⟩ = (true, 119/200) ∧
    Learner.ruleBasedAssessment ⟨none, false, [], [], defaultPatterns⟩
      ⟨"bicycle", 99/100, 0, 0, 1000, 0⟩ = (false, 99/250) := by
  refine ⟨?_, ?_, ?_⟩
  · intro d ps
    induction ps with
    | nil => rfl
    | cons p rest ih =>
        by_cases hmem : d.cls ∈ p.classes
        · by_cases hconf : p.min_conf ≤ d.confidence
          · simp [assessPatterns, hmem, hconf, List.find?]
          · simp [assessPatterns, hmem, hconf, List.find?, ih]
        · simp [assessPatterns, hmem, List.find?, ih]
  · simp only [Learner.ruleBasedAssessment, assessPatterns, defaultPatterns]
    rw [if_neg (by decide), if_pos (by decide), if_pos (by norm_num)]
    norm_num
  · simp only [Learner.ruleBasedAssessment, assessPatterns, defaultPatterns]
    rw [if_neg (by decide), if_neg (by decide), if_neg (by decide)]
    norm_num

/-- C4: in jammer (autonomous) mode `request_permission` returns `true`
immediately — the result is just the logged state, no poll loop is entered —
and the pending-permission flag is left exactly as it was. -/
theorem requestPermission_jammer_immediate (s : SwarmState) (env : Nat → Option Bool)
    (h : s.queen_mode = "jammer") :
    s.requestPermission env = (s.log "SYSTEM" "JAMMER MODE - AUTO-AUTH" "WARNING", true) ∧
    (s.requestPermission env).1.pending_permission = s.pending_permission := by
  unfold SwarmState.requestPermission
  rw [if_pos h]
  exact ⟨rfl, (log_fields s _ _ _).1⟩

/-- C4 witness: jammer mode on the initial state. -/
theorem requestPermission_jammer_immediate_witness :
    ({ initState with queen_mode := "jammer" } : SwarmState).requestPermission (fun _ => none) =
      (({ initState with queen_mode := "jammer" } : SwarmState).log
        "SYSTEM" "JAMMER MODE - AUTO-AUTH" "WARNING", true) ∧
    (({ initState with queen_mode := "jammer" } : SwarmState).requestPermission
      (fun _ => none)).1.pending_permission = false :=
  requestPermission_jammer_immediate { initState with queen_mode := "jammer" } (fun _ => none) rfl

/-- C3: in supervised mode with no response ever posted, `request_permission`
returns `true` (fail-open), clears the pending flag, and ends the mission log
with the timeout entry, which differs from the entries the operator
APPROVED and DENIED outcomes produce. -/
theorem requestPermission_timeout_fail_open
    (s sa sd : SwarmState) (env enva envd : Nat → Option Bool)
    (hs : s.queen_mode ≠ "jammer") (henv : ∀ i, env i = none)
    (ha : sa.queen_mode ≠ "jammer") (henva : enva 0 = some true)
    (hd : sd.queen_mode ≠ "jammer") (henvd : envd 0 = some false) :
    (s.requestPermission env).2 = true ∧
    (s.requestPermission env).1.pending_permission = false ∧
    (s.requestPermission env).1.mission_logs.getLast? =
      some ⟨"SYSTEM", "TIMEOUT - AUTO-AUTH", "WARNING"⟩ ∧
    (sa.requestPermission enva).1.mission_logs.getLast? =
      some ⟨"USER", "AUTHORIZED", "CRITICAL"⟩ ∧
    (sd.requestPermission envd).1.mission_logs.getLast? =
      some ⟨"USER", "DENIED", "WARNING"⟩ ∧
    (⟨"SYSTEM", "TIMEOUT - AUTO-AUTH", "WARNING"⟩ : LogEntry) ≠
      ⟨"USER", "AUTHORIZED", "CRITICAL"⟩ ∧
    (⟨"SYSTEM", "TIMEOUT - AUTO-AUTH", "WARNING"⟩ : LogEntry) ≠
      ⟨"USER", "DENIED", "WARNING"⟩ := by
  have h75 : timeoutPolls = 74 + 1 := rfl
  refine ⟨?_, ?_, ?_, ?_, ?_, by decide, by decide⟩
  · unfold SwarmState.requestPermission
    rw [if_neg hs, pollAux_all_none env henv]
  · unfold SwarmState.requestPermission
    rw [if_neg hs, pollAux_all_none env henv]
  · unfold SwarmState.requestPermission
    rw [if_neg hs, pollAux_all_none env henv]
    exact log_getLast _ _ _ _
  · unfold SwarmState.requestPermission
    rw [if_neg ha, h75, pollAux_consume enva 74 0 _ true henva]
    exact log_getLast _ _ _ _
  · unfold SwarmState.requestPermission
    rw [if_neg hd, h75, pollAux_consume envd 74 0 _ false henvd]
    exact log_getLast _ _ _ _

/-- C3 witness: the theorem at the initial (supervised) state, with an
all-silent schedule for the timeout case and immediate responses for the
operator cases. -/
theorem requestPermission_timeout_fail_open_witness :
    (initState.requestPermission (fun _ => none)).2 = true ∧
    (initState.requestPermission (fun _ => none)).1.pending_permission = false ∧
    (initState.requestPermission (fun _ => none)).1.mission_logs.getLast? =
      some ⟨"SYSTEM", "TIMEOUT - AUTO-AUTH", "WARNING"⟩ ∧
    (initState.requestPermission (fun _ => some true)).1.mission_logs.getLast? =
      some ⟨"USER", "AUTHORIZED", "CRITICAL"⟩ ∧
    (initState.requestPermission (fun _ => some false)).1.mission_logs.getLast? =
      some ⟨"USER", "DENIED", "WARNING"⟩ ∧
    (⟨"SYSTEM", "TIMEOUT - AUTO-AUTH", "WARNING"⟩ : LogEntry) ≠
      ⟨"USER", "AUTHORIZED", "CRITICAL"⟩ ∧
    (⟨"SYSTEM", "TIMEOUT - AUTO-AUTH", "WARNING"⟩ : LogEntry) ≠
      ⟨"USER", "DENIED", "WARNING"⟩ :=
  requestPermission_timeout_fail_open initState initState initState
    (fun _ => none) (fun _ => some true) (fun _ => some false)
    (by decide) (fun _ => rfl) (by decide) rfl (by decide) rfl

/-- C6 counterexample: an `approve` posted while the coordinator is IDLE
(nothing pending) is not a no-op — it writes the response slot. -/
theorem approve_while_idle_not_noop_counterexample :
    initState.pending_permission = false ∧
    initState.user_response = none ∧
    (approve initState).user_response = some true ∧
    approve initState ≠ initState := by
  refine ⟨rfl, rfl, rfl, ?_⟩
  intro h
  have h2 := congrArg SwarmState.user_response h
  simp [approve, SwarmState.log, initState] at h2

/-- C6 amended: `approve`/`deny` always write the response slot and clear the
pending flag, even while IDLE (they are not no-ops); nevertheless a stale
response can never be observed: `request_permission` clears the slot before
polling, so its outcome is independent of any previously posted response, and
it always terminates with an empty response slot (a posted response is
consumed at most once). -/
theorem submit_response_always_writes_never_stale (s : SwarmState)
    (env : Nat → Option Bool) (v : Option Bool) (h : s.queen_mode ≠ "jammer") :
    (approve s).user_response = some true ∧
    (approve s).pending_permission = false ∧
    (deny s).user_response = some false ∧
    (deny s).pending_permission = false ∧
    SwarmState.requestPermission { s with user_response := v } env =
      s.requestPermission env ∧
    (s.requestPermission env).1.user_response = none := by
  refine ⟨rfl, rfl, rfl, rfl, ?_, ?_⟩
  · unfold SwarmState.requestPermission
    rw [if_neg h, if_neg h]
    cases hat : s.active_threat <;> simp [SwarmState.log, hat]
  · unfold SwarmState.requestPermission
    rw [if_neg h]
    cases hat : s.active_threat <;>
      exact pollAux_user_response env timeoutPolls 0 _ rfl

/-- C6 witness: the amended statement on the initial state with a stale
`some false` in the slot and an all-silent poll schedule. -/
theorem submit_response_always_writes_never_stale_witness :
    (approve initState).user_response = some true ∧
    (approve initState).pending_permission = false ∧
    (deny initState).user_response = some false ∧
    (deny initState).pending_permission = false ∧
    SwarmState.requestPermission { initState with user_response := some false }
      (fun _ => none) = initState.requestPermission (fun _ => none) ∧
    (initState.requestPermission (fun _ => none)).1.user_response = none :=
  submit_response_always_writes_never_stale initState (fun _ => none) (some false) (by decide)

/-- C5: `autonomous_decision` authorizes exactly when the prediction says
threat with confidence strictly above 0.80; at confidence exactly 0.80 (or a
non-threat verdict) it returns `false`. -/
theorem autonomousDecision_threshold (L : Learner) (hour : ℚ) (d : Detection) :
    (L.autonomousDecision hour d = true ↔
      (L.predictThreatLevel hour d).1 = true ∧
      (4/5 : ℚ) < (L.predictThreatLevel hour d).2) ∧
    ((L.predictThreatLevel hour d).2 = 4/5 → L.autonomousDecision hour d = false) := by
  constructor
  · unfold Learner.autonomousDecision AUTONOMOUS_THRESHOLD
    simp
  · intro hc
    unfold Learner.autonomousDecision AUTONOMOUS_THRESHOLD
    simp [hc]

/-- C5 witness: an untrained learner assesses person@16/17 through the rule
table at exactly 0.80, and the autonomous decision is `false` on the
boundary. -/
theorem autonomousDecision_threshold_witness :
    Learner.autonomousDecision ⟨none, false, [], [], defaultPatterns⟩ 0
      ⟨"person", 16/17, 0, 0, 1000, 0⟩ = false :=
  (autonomousDecision_threshold ⟨none, false, [], [], defaultPatterns⟩ 0
    ⟨"person", 16/17, 0, 0, 1000, 0⟩).2 (by
      have h : Learner.predictThreatLevel ⟨none, false, [], [], defaultPatterns⟩ 0
          ⟨"person", 16/17, 0, 0, 1000, 0⟩ = (true, 4/5) := by
        simp only [Learner.predictThreatLevel, Learner.ruleBasedAssessment, assessPatterns,
          defaultPatterns]
        rw [if_pos (by decide)]
        rw [if_neg (by decide), if_pos (by decide), if_pos (by norm_num)]
        norm_num
      rw [h])

/-- C8: from a fresh learner with the backend available, any sequence of
learning calls leaves at most 1000 buffered experiences, and the retained
entries are exactly the most recently pushed ones in insertion order (FIFO
eviction). -/
theorem learn_buffer_fifo_bound (L0 : Learner) (inputs : List LearnInput)
    (hC : L0.classifier.isSome = true) (h0 : L0.experience_buffer = []) :
    ((inputs.foldl learnStep L0).experience_buffer).length ≤ 1000 ∧
    (inputs.foldl learnStep L0).experience_buffer =
      (inputs.map entryOf).drop (inputs.length - 1000) := by
  have hbuf := foldl_learnStep_buffer inputs L0 hC
  rw [h0] at hbuf
  have hdrop := foldl_pushCap_eq_drop 1000 (by norm_num) (inputs.map entryOf)
  rw [List.length_map] at hdrop
  refine ⟨?_, by rw [hbuf, hdrop]⟩
  rw [hbuf, hdrop, List.length_drop, List.length_map]
  omega

/-- C8 witness: one learning call on a fresh learner retains exactly its
entry. -/
theorem learn_buffer_fifo_bound_witness :
    (([⟨⟨"car", 1/2, 0, 0, 1000, 0⟩, true, 0, 0, true⟩] : List LearnInput).foldl learnStep
      ⟨some (fun _ => none), false, [], [], defaultPatterns⟩).experience_buffer.length ≤ 1000 ∧
    (([⟨⟨"car", 1/2, 0, 0, 1000, 0⟩, true, 0, 0, true⟩] : List LearnInput).foldl learnStep
      ⟨some (fun _ => none), false, [], [], defaultPatterns⟩).experience_buffer =
      (([⟨⟨"car", 1/2, 0, 0, 1000, 0⟩, true, 0, 0, true⟩] : List LearnInput).map entryOf).drop
        (([⟨⟨"car", 1/2, 0, 0, 1000, 0⟩, true, 0, 0, true⟩] : List LearnInput).length - 1000) :=
  learn_buffer_fifo_bound ⟨some (fun _ => none), false, [], [], defaultPatterns⟩
    [⟨⟨"car", 1/2, 0, 0, 1000, 0⟩, true, 0, 0, true⟩] rfl rfl

/-- C9: the save/load round-trip through a restart loses the trained flag.
A learner with `trained = true` and one experience is saved; constructing a
fresh learner over that artifact (`__init__` calls `load_model` before
`threat_patterns` exists, so the load aborts on an `AttributeError` after
restoring the buffer) yields `trained = false` and an empty training history,
although the experience count is restored.  An explicit `load_model` on a
fully constructed learner does restore the flag, confirming the intended
round-trip semantics that the constructor path breaks. -/
theorem constructor_load_drops_trained_flag :
    let e : Experience := ⟨extractFeatures 0 ⟨"person", 9/10, 0, 0, 1000, 0⟩, 1, 0, "person", 9/10⟩
    let L : Learner := ⟨some (fun _ => none), true, [e], [⟨0, 1, "person"⟩], defaultPatterns⟩
    let L2 := initLearner (some (fun _ => none)) (some (L.saveModel 0))
    let L3 := (initLearner (some (fun _ => none)) none).loadModelPost (some (L.saveModel 0))
    L.is_trained = true ∧ L.experience_buffer.length = 1 ∧
    (L.saveModel 0).is_trained = true ∧
    L2.is_trained = false ∧ L2.experience_buffer.length = 1 ∧ L2.training_history = [] ∧
    L3.is_trained = true ∧ L3.experience_buffer.length = 1 := by
  refine ⟨rfl, rfl, rfl, rfl, ?_, rfl, rfl, ?_⟩ <;>
    simp [initLearner, Learner.saveModel, Learner.loadModelPost, lastN]

/-- C10: `get_stats` on an empty buffer returns the fixed all-zero record
without dividing; on a non-empty buffer the divisor (the total) is positive
and the rate is the confirmed/total ratio — the operation is total and never
divides by zero. -/
theorem getStats_no_division_by_zero (L : Learner) (now : ℚ) :
    (L.experience_buffer = [] →
      L.getStats now =
        { total_detections := 0, confirmed_threats := 0, denied_threats := 0,
          accuracy_estimate := 0, is_trained := false, model_age_hours := 0 }) ∧
    (L.experience_buffer ≠ [] →
      0 < (L.getStats now).total_detections ∧
      (L.getStats now).accuracy_estimate =
        ((L.getStats now).confirmed_threats : ℚ) /
          ((L.getStats now).total_detections : ℚ)) := by
  constructor
  · intro h
    unfold Learner.getStats
    rw [h]
    rfl
  · intro h
    have hlen : L.experience_buffer.length ≠ 0 := by
      simpa [List.length_eq_zero] using h
    unfold Learner.getStats
    rw [if_neg hlen]
    exact ⟨Nat.pos_of_ne_zero hlen, rfl⟩

/-- C10 witness: the empty case at a fresh learner and the non-empty case at
a one-entry buffer. -/
theorem getStats_no_division_by_zero_witness :
    (Learner.getStats ⟨none, false, [], [], defaultPatterns⟩ 0 =
      { total_detections := 0, confirmed_threats := 0, denied_threats := 0,
        accuracy_estimate := 0, is_trained := false, model_age_hours := 0 }) ∧
    0 < (Learner.getStats
      ⟨none, false, [⟨extractFeatures 0 ⟨"car", 1/2, 0, 0, 1000, 0⟩, 1, 0, "car", 1/2⟩], [],
        defaultPatterns⟩ 0).total_detections :=
  ⟨(getStats_no_division_by_zero ⟨none, false, [], [], defaultPatterns⟩ 0).1 rfl,
   ((getStats_no_division_by_zero
      ⟨none, false, [⟨extractFeatures 0 ⟨"car", 1/2, 0, 0, 1000, 0⟩, 1, 0, "car", 1/2⟩], [],
        defaultPatterns⟩ 0).2 (by simp)).1⟩

end DroneSim
